import Mathlib

/-!
Verification of the FlipKit client workflow (Next.js frontend).

The development shallowly embeds the client-visible workflow state machine
of the repository:

* the home page component state and its handlers (handleFile, reset,
  handleAnalyze, handleNegotiate, the error-stage Try again button, the
  offers link rendered in the calling stage), and
* the offers review page (fetchOffers and the accepted and declined
  partitions shown when status is done).

React useState hooks become fields of a record; each event handler becomes
a pure function from the record (plus the data the handler receives: the
dropped file, the freshly minted object URL, the HTTP outcome) to the next
record.  Async handlers are split into a start phase (the setState calls
issued before the fetch resolves) and a resolve phase (the setState calls
issued by the continuation once the response arrives); the sequential
composition models the undisturbed execution, while composing reset between
the phases models a reset issued while the request is outstanding.

JavaScript numbers carried by the payloads (prices, confidence, and so on)
are never computed with by the modeled code, only stored and compared, so
they are embedded as rationals.  Presentation-only state (the drag-hover
flag, the hidden input element value) is omitted; the preview object URL
revoked by reset is reported as an explicit second component so that the
release of the local handle stays observable.
-/

namespace FlipKit

/-- Stages of the home page workflow, from the UploadState union type. -/
inductive UploadState where
  | idle
  | preview
  | analyzing
  | results
  | calling
  | error
  deriving DecidableEq, Repr

/-- A selected file: only the fields the workflow reads. -/
structure File where
  name : String
  type : String
  deriving DecidableEq, Repr

/-- Geolocation coordinates held by the coords state hook. -/
structure Coords where
  lat : Rat
  lng : Rat
  deriving DecidableEq, Repr

/-- NegotiationStrategy payload, from the frontend interface of that name. -/
structure NegotiationStrategy where
  opening_price : Rat
  target_price : Rat
  walk_away_price : Rat
  opening_script : String
  counter_script : String
  accept_script : String
  walk_away_script : String
  deriving DecidableEq, Repr

/-- Price range record inside AnalysisResult. -/
structure PriceRange where
  low : Rat
  fair : Rat
  high : Rat
  currency : String
  deriving DecidableEq, Repr

/-- One marketplace row of the platforms array. -/
structure Platform where
  name : String
  avg_price : Rat
  demand : String
  time_to_sell_days : Rat
  deriving DecidableEq, Repr

/-- One nearby store of the local_stores array. -/
structure LocalStore where
  name : String
  address : String
  phone : String
  specialty : String
  deriving DecidableEq, Repr

/-- AnalysisResult payload, from the frontend interface of that name. -/
structure AnalysisResult where
  analysis_id : String
  image_url : String
  item_name : String
  item_description : String
  estimated_price_range : PriceRange
  best_platform : String
  platforms : List Platform
  local_stores : List LocalStore
  condition_tips : List String
  confidence : Rat
  negotiation_strategy : Option NegotiationStrategy
  deriving DecidableEq, Repr

/-- The state hooks of the home page component, bundled. -/
structure HomeState where
  stage : UploadState
  preview : Option String
  currentFile : Option File
  analysisResult : Option AnalysisResult
  errorMessage : Option String
  coords : Option Coords
  jobId : Option String
  deriving DecidableEq, Repr

/-- The home page component as mounted: everything starts empty or idle. -/
def initialHomeState : HomeState :=
  { stage := .idle
    preview := none
    currentFile := none
    analysisResult := none
    errorMessage := none
    coords := none
    jobId := none }

/-- Whether the first character list is an initial segment of the second,
written by structural recursion so that it evaluates definitionally. -/
def charsStartWith : List Char → List Char → Bool
  | [], _ => true
  | _ :: _, [] => false
  | p :: ps, c :: cs => p == c && charsStartWith ps cs

/-- The JavaScript test s.startsWith(p): does s begin with p. -/
def jsStartsWith (s p : String) : Bool :=
  charsStartWith p.data s.data

/-- handleFile: ignore non-image MIME types, otherwise store the fresh
object URL and the file and enter the preview stage.  The url argument
stands for the value URL.createObjectURL returned for this file. -/
def handleFile (s : HomeState) (f : File) (url : String) : HomeState :=
  if jsStartsWith f.type "image/" then
    { s with preview := some url, currentFile := some f, stage := .preview }
  else
    s

/-- reset: revoke the preview object URL when one is held, clear the
preview, the file, the analysis result and the error message, and return
to idle.  The second component is the URL passed to URL.revokeObjectURL,
none when no revocation happened.  The jobId and coords hooks are not
touched by the source. -/
def reset (s : HomeState) : HomeState × Option String :=
  ({ s with
      preview := none
      currentFile := none
      analysisResult := none
      errorMessage := none
      stage := .idle },
   s.preview)

/-- Outcome of one fetch to a JSON endpoint, as the handlers distinguish
them: a 2xx response with a parsed body, a non-2xx response carrying its
body text, or a thrown transport-level failure (network, malformed JSON)
carrying the Error message when the thrown value was an Error. -/
inductive FetchOutcome (α : Type) where
  | ok (body : α)
  | httpError (bodyText : String)
  | transportFailure (msg : Option String)
  deriving DecidableEq, Repr

/-- handleAnalyze, start phase: the setState calls issued before awaiting
fetch — enter analyzing and clear the error message.  Only reached when a
file is held; the guard lives in handleAnalyze below. -/
def handleAnalyzeStart (s : HomeState) : HomeState :=
  { s with stage := .analyzing, errorMessage := none }

/-- handleAnalyze, resolve phase: the continuation after the fetch settles.
A 2xx response stores the parsed result and enters results; a non-2xx
response throws an Error whose message prefixes the body with the text
Analysis failed and a colon, caught below into the error stage; any other
thrown value falls back to the generic message. -/
def handleAnalyzeResolve (s : HomeState) (out : FetchOutcome AnalysisResult) :
    HomeState :=
  match out with
  | .ok r => { s with analysisResult := some r, stage := .results }
  | .httpError body =>
      { s with errorMessage := some ("Analysis failed: " ++ body), stage := .error }
  | .transportFailure m =>
      { s with errorMessage := some (m.getD "Something went wrong"), stage := .error }

/-- handleAnalyze run to completion with no interleaved event: a no-op when
no file is held, otherwise the start phase followed by the resolve phase. -/
def handleAnalyze (s : HomeState) (out : FetchOutcome AnalysisResult) : HomeState :=
  match s.currentFile with
  | none => s
  | some _ => handleAnalyzeResolve (handleAnalyzeStart s) out

/-- handleNegotiate guard: the handler returns immediately unless a held
analysis result has a truthy analysis_id (the empty string is falsy). -/
def negotiateGuard (s : HomeState) : Bool :=
  match s.analysisResult with
  | some a => !(a.analysis_id == "")
  | none => false

/-- handleNegotiate, resolve phase: the continuation after the fetch
settles.  A 2xx response stores the job_id and enters calling; a non-2xx
response throws an Error carrying exactly the body text, caught into the
error stage; any other thrown value falls back to the generic message.
Unlike analyze, negotiate issues no setState before the fetch. -/
def handleNegotiateResolve (s : HomeState) (out : FetchOutcome String) : HomeState :=
  match out with
  | .ok j => { s with jobId := some j, stage := .calling }
  | .httpError body => { s with errorMessage := some body, stage := .error }
  | .transportFailure m =>
      { s with errorMessage := some (m.getD "Something went wrong"), stage := .error }

/-- handleNegotiate run to completion with no interleaved event. -/
def handleNegotiate (s : HomeState) (out : FetchOutcome String) : HomeState :=
  if negotiateGuard s then handleNegotiateResolve s out else s

/-- The href of the Check my offers link rendered in the calling stage;
JavaScript template interpolation prints null for an absent jobId. -/
def offersLinkHref (s : HomeState) : String :=
  "/offers?job_id=" ++ (match s.jobId with | some j => j | none => "null")

/-- The Try again button of the error stage: a bare setState to preview. -/
def tryAgain (s : HomeState) : HomeState :=
  { s with stage := .preview }

/-! ### Offers review page -/

/-- OfferResult payload, from the offers page interface of that name. -/
structure OfferResult where
  id : String
  store_name : String
  store_address : String
  store_phone : String
  store_specialty : String
  accepted : Bool
  agreed_price : Option Rat
  call_summary : Option String
  deriving DecidableEq, Repr

/-- OffersData payload, the snapshot returned by the offers endpoint. -/
structure OffersData where
  job_id : String
  status : String
  item_name : String
  image_url : String
  offers : List OfferResult
  deriving DecidableEq, Repr

/-- Stages of the offers page, from the PageState union type. -/
inductive PageState where
  | loading
  | ready
  | error
  deriving DecidableEq, Repr

/-- The state hooks of the offers page component, bundled. -/
structure OffersPageState where
  pageState : PageState
  data : Option OffersData
  errorMessage : Option String
  acceptedOfferId : Option String
  deriving DecidableEq, Repr

/-- The offers page as mounted. -/
def initialOffersPageState : OffersPageState :=
  { pageState := .loading
    data := none
    errorMessage := none
    acceptedOfferId := none }

/-- The JavaScript falsiness test applied to a nullable string, as the
guard if not jobId performs it: true for null and for the empty string. -/
def jsFalsyString : Option String → Bool
  | none => true
  | some s => s == ""

/-- fetchOffers: with a falsy job_id query parameter (absent or empty) the
page errors without fetching; otherwise a 2xx response stores the snapshot
and enters ready, a non-2xx response or a transport failure enters error
with the body text or the generic message. -/
def fetchOffers (jobId : Option String) (out : FetchOutcome OffersData)
    (s : OffersPageState) : OffersPageState :=
  if jsFalsyString jobId then
    { s with errorMessage := some "No job ID provided.", pageState := .error }
  else
      match out with
      | .ok json => { s with data := some json, pageState := .ready }
      | .httpError body => { s with errorMessage := some body, pageState := .error }
      | .transportFailure m =>
          { s with errorMessage := some (m.getD "Something went wrong"),
                   pageState := .error }

/-- The accepted list computed on every render: the accepted offers of the
held snapshot (empty when none is held) cut to the first two. -/
def acceptedShown (data : Option OffersData) : List OfferResult :=
  (((match data with | some d => d.offers | none => []) : List OfferResult).filter
    (fun o => o.accepted)).take 2

/-- The declined list computed on every render: the non-accepted offers of
the held snapshot cut to the first one. -/
def declinedShown (data : Option OffersData) : List OfferResult :=
  (((match data with | some d => d.offers | none => []) : List OfferResult).filter
    (fun o => !o.accepted)).take 1

/-! ### Concrete sample data

States reached by running the embedded handlers on concrete inputs, used
to instantiate the theorems below. -/

/-- A JPEG file as produced by the picker or the camera. -/
def f1 : File := { name := "item.jpg", type := "image/jpeg" }

/-- A file whose MIME type is not an image type. -/
def fBad : File := { name := "doc.pdf", type := "application/pdf" }

/-- The analyze payload of the end-to-end scenario in the spec. -/
def a1 : AnalysisResult :=
  { analysis_id := "a1"
    image_url := ""
    item_name := "Desk lamp"
    item_description := ""
    estimated_price_range := { low := 200, fair := 240, high := 280, currency := "USD" }
    best_platform := "eBay"
    platforms := []
    local_stores := []
    condition_tips := []
    confidence := 0.8
    negotiation_strategy := none }

/-- The state after selecting the image f1 from idle. -/
def previewState : HomeState := handleFile initialHomeState f1 "blob:preview-1"

/-- The state after a successful analyze call from previewState. -/
def resultsState : HomeState := handleAnalyze previewState (.ok a1)

/-- The state after a successful negotiate call from resultsState. -/
def callingState : HomeState := handleNegotiate resultsState (.ok "j1")

/-- The state after analyze fails with HTTP 500 and body model unavailable. -/
def errorState : HomeState := handleAnalyze previewState (.httpError "model unavailable")

/-- An accepted offer with agreed price 300. -/
def oA : OfferResult :=
  { id := "o1", store_name := "Store A", store_address := "1 Main St"
    store_phone := "555-0001", store_specialty := "vintage"
    accepted := true, agreed_price := some 300, call_summary := none }

/-- A declined offer. -/
def oB : OfferResult :=
  { id := "o2", store_name := "Store B", store_address := "2 Main St"
    store_phone := "555-0002", store_specialty := "antiques"
    accepted := false, agreed_price := none, call_summary := none }

/-- An accepted offer with agreed price 450. -/
def oC : OfferResult :=
  { id := "o3", store_name := "Store C", store_address := "3 Main St"
    store_phone := "555-0003", store_specialty := "electronics"
    accepted := true, agreed_price := some 450, call_summary := none }

/-- A third accepted offer, used to exceed the display cap. -/
def oD : OfferResult :=
  { id := "o4", store_name := "Store D", store_address := "4 Main St"
    store_phone := "555-0004", store_specialty := "furniture"
    accepted := true, agreed_price := some 100, call_summary := none }

/-- The done snapshot of the spec example: accepted 300, declined, accepted 450. -/
def dEx : OffersData :=
  { job_id := "j1", status := "done", item_name := "Desk lamp", image_url := ""
    offers := [oA, oB, oC] }

/-- A done snapshot holding three accepted offers. -/
def d3 : OffersData :=
  { job_id := "j1", status := "done", item_name := "Desk lamp", image_url := ""
    offers := [oA, oB, oC, oD] }

/-- A snapshot whose negotiation job is still running. -/
def snapPending : OffersData :=
  { job_id := "j1", status := "pending", item_name := "Desk lamp", image_url := ""
    offers := [] }

/-! ## Theorems -/

/-- C1, counterexample: from the calling state reached through a successful
negotiate call, reset does not clear the job handle, so the resulting state
differs from the state reset yields from idle (where the job handle is
none). -/
theorem c1_reset_counterexample : ¬ ((reset callingState).1.jobId = none) := by
  decide

/-- C1, amended: reset is total and, from any state, yields stage idle with
no captured image (the preview handle is revoked and cleared), no analysis
result and no error message; the job handle and the coordinates, however,
are left unchanged rather than cleared. -/
theorem c1_reset_amended (s : HomeState) :
    (reset s).1.stage = .idle ∧
      (reset s).1.preview = none ∧
      (reset s).1.currentFile = none ∧
      (reset s).1.analysisResult = none ∧
      (reset s).1.errorMessage = none ∧
      (reset s).1.jobId = s.jobId ∧
      (reset s).1.coords = s.coords ∧
      (reset s).2 = s.preview :=
  ⟨rfl, rfl, rfl, rfl, rfl, rfl, rfl, rfl⟩

/-- C2: whenever a file is held, a successful analyze call (2xx with a
parsed JSON body) leaves the workflow exactly in the results stage and
stores the returned payload unchanged. -/
theorem c2_analyze_success (s : HomeState) (f : File) (r : AnalysisResult)
    (h : s.currentFile = some f) :
    (handleAnalyze s (.ok r)).stage = .results ∧
      (handleAnalyze s (.ok r)).analysisResult = some r := by
  simp [handleAnalyze, h, handleAnalyzeStart, handleAnalyzeResolve]

/-- C2 witness: the preview state holds f1, and a successful analyze call
returning a1 lands in results storing a1. -/
theorem c2_analyze_success_witness :
    previewState.currentFile = some f1 ∧
      ((handleAnalyze previewState (.ok a1)).stage = .results ∧
        (handleAnalyze previewState (.ok a1)).analysisResult = some a1) :=
  ⟨by decide, c2_analyze_success previewState f1 a1 (by decide)⟩

/-- C3, counterexample: an HTTP 500 response with body model unavailable
leaves an error message that is not equal to the response body text (the
handler prefixes it with Analysis failed and a colon). -/
theorem c3_analyze_error_counterexample :
    ¬ ((handleAnalyze previewState (.httpError "model unavailable")).errorMessage =
        some "model unavailable") := by
  decide

/-- C3, amended: whenever a file is held, a non-2xx analyze response moves
the workflow to the error stage with message equal to the text Analysis
failed, a colon and a space, followed by the response body text; in
particular HTTP 500 with body model unavailable yields the message
Analysis failed: model unavailable. -/
theorem c3_analyze_http_error (s : HomeState) (f : File) (body : String)
    (h : s.currentFile = some f) :
    (handleAnalyze s (.httpError body)).stage = .error ∧
      (handleAnalyze s (.httpError body)).errorMessage =
        some ("Analysis failed: " ++ body) := by
  simp [handleAnalyze, h, handleAnalyzeStart, handleAnalyzeResolve]

/-- C3 witness: at the preview state with body model unavailable. -/
theorem c3_analyze_http_error_witness :
    previewState.currentFile = some f1 ∧
      ((handleAnalyze previewState (.httpError "model unavailable")).stage = .error ∧
        (handleAnalyze previewState (.httpError "model unavailable")).errorMessage =
          some ("Analysis failed: " ++ "model unavailable")) :=
  ⟨by decide, c3_analyze_http_error previewState f1 "model unavailable" (by decide)⟩

/-- C4: a file whose MIME type does not begin with image and a slash is
silently ignored by the capture handler: the whole component state is
unchanged, whatever stage it was in. -/
theorem c4_non_image_ignored (s : HomeState) (f : File) (url : String)
    (h : jsStartsWith f.type "image/" = false) :
    handleFile s f url = s := by
  simp [handleFile, h]

/-- C4 witness: submitting the PDF file from idle changes nothing. -/
theorem c4_non_image_ignored_witness :
    jsStartsWith fBad.type "image/" = false ∧
      handleFile initialHomeState fBad "blob:ignored" = initialHomeState :=
  ⟨by decide, c4_non_image_ignored initialHomeState fBad "blob:ignored" (by decide)⟩

/-- C5, counterexample: on a done snapshot that holds three accepted
offers, the displayed accepted list shows two of them, so it is not the
full list of offers with accepted true. -/
theorem c5_partition_counterexample :
    (acceptedShown (some d3)).length = 2 ∧
      (d3.offers.filter (fun o => o.accepted)).length = 3 ∧
      acceptedShown (some d3) ≠ d3.offers.filter (fun o => o.accepted) := by
  refine ⟨rfl, rfl, fun h => ?_⟩
  have hl := congrArg List.length h
  have h2 : (acceptedShown (some d3)).length = 2 := rfl
  have h3 : (d3.offers.filter (fun o => o.accepted)).length = 3 := rfl
  rw [h2, h3] at hl
  exact absurd hl (by decide)

/-- C5, amended: for a done snapshot, the displayed accepted list is
exactly the first at most two offers with accepted true, in their original
relative order (the take-2 of the accepted filter, hence an
order-preserving sublist of it of length at most two), and the displayed
declined list is exactly the first at most one offer with accepted false
(the take-1 of the declined filter); on the example snapshot with offers
accepted 300, declined, accepted 450 the displayed lists coincide with the
exact partition: both accepted offers in order, and the single declined
offer. -/
theorem c5_partition_amended (d : OffersData) (_hd : d.status = "done") :
    (acceptedShown (some d) = (d.offers.filter (fun o => o.accepted)).take 2 ∧
      declinedShown (some d) = (d.offers.filter (fun o => !o.accepted)).take 1 ∧
      List.Sublist (acceptedShown (some d)) (d.offers.filter (fun o => o.accepted)) ∧
      (acceptedShown (some d)).length ≤ 2 ∧
      List.Sublist (declinedShown (some d)) (d.offers.filter (fun o => !o.accepted)) ∧
      (declinedShown (some d)).length ≤ 1) ∧
    (acceptedShown (some dEx) = [oA, oC] ∧ declinedShown (some dEx) = [oB]) :=
  ⟨⟨rfl, rfl,
    List.take_sublist 2 _, List.length_take_le 2 _,
    List.take_sublist 1 _, List.length_take_le 1 _⟩,
   by rfl, by rfl⟩

/-- C5 witness: instantiated at the example snapshot. -/
theorem c5_partition_amended_witness :
    dEx.status = "done" ∧
      ((acceptedShown (some dEx) =
          (dEx.offers.filter (fun o => o.accepted)).take 2 ∧
        declinedShown (some dEx) =
          (dEx.offers.filter (fun o => !o.accepted)).take 1 ∧
        List.Sublist (acceptedShown (some dEx))
          (dEx.offers.filter (fun o => o.accepted)) ∧
        (acceptedShown (some dEx)).length ≤ 2 ∧
        List.Sublist (declinedShown (some dEx))
          (dEx.offers.filter (fun o => !o.accepted)) ∧
        (declinedShown (some dEx)).length ≤ 1) ∧
      (acceptedShown (some dEx) = [oA, oC] ∧ declinedShown (some dEx) = [oB])) :=
  ⟨rfl, c5_partition_amended dEx rfl⟩

/-- C6: from a state holding an analysis result with a nonempty
analysis_id, a successful negotiate call returning job_id j stores j as
the job handle, moves the workflow to the calling stage, and the link to
the offer review view rendered there carries job_id equal to j in its
query string. -/
theorem c6_negotiate_success (s : HomeState) (a : AnalysisResult) (j : String)
    (h : s.analysisResult = some a) (hid : a.analysis_id ≠ "") :
    (handleNegotiate s (.ok j)).jobId = some j ∧
      (handleNegotiate s (.ok j)).stage = .calling ∧
      offersLinkHref (handleNegotiate s (.ok j)) = "/offers?job_id=" ++ j := by
  have hg : negotiateGuard s = true := by
    simp [negotiateGuard, h, hid]
  simp [handleNegotiate, hg, handleNegotiateResolve, offersLinkHref]

/-- C6 witness: at the results state holding a1, with job j1. -/
theorem c6_negotiate_success_witness :
    resultsState.analysisResult = some a1 ∧ a1.analysis_id ≠ "" ∧
      ((handleNegotiate resultsState (.ok "j1")).jobId = some "j1" ∧
        (handleNegotiate resultsState (.ok "j1")).stage = .calling ∧
        offersLinkHref (handleNegotiate resultsState (.ok "j1")) =
          "/offers?job_id=" ++ "j1") :=
  ⟨by rfl, by decide,
   c6_negotiate_success resultsState a1 "j1" (by rfl) (by decide)⟩

/-- C7: with a truthy job id present (non-null and nonempty, so the guard
lets the fetch proceed) and the service answering the same pending
snapshot, running fetchOffers twice leaves the page in exactly the state
one run produces; that state is ready and holds precisely the offers the
service returned, none fabricated. -/
theorem c7_fetch_offers_idempotent (j : String) (snap : OffersData)
    (s : OffersPageState) (_hp : snap.status = "pending")
    (hj : jsFalsyString (some j) = false) :
    fetchOffers (some j) (.ok snap) (fetchOffers (some j) (.ok snap) s) =
        fetchOffers (some j) (.ok snap) s ∧
      (fetchOffers (some j) (.ok snap) s).pageState = .ready ∧
      (fetchOffers (some j) (.ok snap) s).data = some snap := by
  simp [fetchOffers, hj]

/-- C7 witness: at the freshly mounted page with the pending snapshot and
the nonempty job id j1. -/
theorem c7_fetch_offers_idempotent_witness :
    snapPending.status = "pending" ∧ jsFalsyString (some "j1") = false ∧
      (fetchOffers (some "j1") (.ok snapPending)
          (fetchOffers (some "j1") (.ok snapPending) initialOffersPageState) =
        fetchOffers (some "j1") (.ok snapPending) initialOffersPageState ∧
      (fetchOffers (some "j1") (.ok snapPending) initialOffersPageState).pageState =
        .ready ∧
      (fetchOffers (some "j1") (.ok snapPending) initialOffersPageState).data =
        some snapPending) :=
  ⟨rfl, by decide,
   c7_fetch_offers_idempotent "j1" snapPending initialOffersPageState rfl (by decide)⟩

/-- C8: the code applies a late negotiate response after a reset.  From the
results state the guard passes, so the request goes out; resetting while it
is outstanding yields idle with no analysis result; yet when the response
arrives, the continuation still stores the job handle and moves the
workflow to calling, contradicting the requirement that a post-reset
response be discarded and the workflow stay idle. -/
theorem c8_stale_response_applied :
    negotiateGuard resultsState = true ∧
      (reset resultsState).1.stage = .idle ∧
      (reset resultsState).1.analysisResult = none ∧
      (handleNegotiateResolve (reset resultsState).1 (.ok "j1")).jobId = some "j1" ∧
      (handleNegotiateResolve (reset resultsState).1 (.ok "j1")).stage = .calling ∧
      (handleNegotiateResolve (reset resultsState).1 (.ok "j1")).stage ≠ .idle := by
  refine ⟨by decide, rfl, rfl, rfl, rfl, by decide⟩

/-- C9: the Try again button of the error stage moves the workflow back to
preview and changes nothing else: the preview handle, the current file, the
analysis result, the error message, the coordinates and the job handle all
stay exactly what they were. -/
theorem c9_try_again_frame (s : HomeState) (_h : s.stage = .error) :
    (tryAgain s).stage = .preview ∧
      (tryAgain s).preview = s.preview ∧
      (tryAgain s).currentFile = s.currentFile ∧
      (tryAgain s).analysisResult = s.analysisResult ∧
      (tryAgain s).errorMessage = s.errorMessage ∧
      (tryAgain s).coords = s.coords ∧
      (tryAgain s).jobId = s.jobId :=
  ⟨rfl, rfl, rfl, rfl, rfl, rfl, rfl⟩

/-- C9 witness: at the error state reached by a failed analyze call; the
original image is still attached afterwards. -/
theorem c9_try_again_frame_witness :
    errorState.stage = .error ∧
      ((tryAgain errorState).stage = .preview ∧
        (tryAgain errorState).preview = errorState.preview ∧
        (tryAgain errorState).currentFile = errorState.currentFile ∧
        (tryAgain errorState).analysisResult = errorState.analysisResult ∧
        (tryAgain errorState).errorMessage = errorState.errorMessage ∧
        (tryAgain errorState).coords = errorState.coords ∧
        (tryAgain errorState).jobId = errorState.jobId) :=
  ⟨by decide, c9_try_again_frame errorState (by decide)⟩

/-- C10: for any done snapshot, what the review view displays is the first
two offers with accepted true and the first offer with accepted false, and
therefore never more than two accepted and one declined entries, however
many the snapshot holds. -/
theorem c10_display_caps (d : OffersData) (_hd : d.status = "done") :
    acceptedShown (some d) = (d.offers.filter (fun o => o.accepted)).take 2 ∧
      (acceptedShown (some d)).length ≤ 2 ∧
      declinedShown (some d) = (d.offers.filter (fun o => !o.accepted)).take 1 ∧
      (declinedShown (some d)).length ≤ 1 :=
  ⟨rfl, List.length_take_le 2 _, rfl, List.length_take_le 1 _⟩

/-- C10 witness: at the done snapshot with three accepted offers. -/
theorem c10_display_caps_witness :
    d3.status = "done" ∧
      (acceptedShown (some d3) = (d3.offers.filter (fun o => o.accepted)).take 2 ∧
        (acceptedShown (some d3)).length ≤ 2 ∧
        declinedShown (some d3) = (d3.offers.filter (fun o => !o.accepted)).take 1 ∧
        (declinedShown (some d3)).length ≤ 1) :=
  ⟨rfl, c10_display_caps d3 rfl⟩

end FlipKit
